import Mathlib

/-!
Verification development for a small Express/Prisma REST service
(users, items, reviews, comments) with JWT authentication and
per-resource ownership checks.

Shallow embedding: the Prisma-backed database is a record of lists, each
route handler is a pure function from its (already routed) request data
and the database to a response and, for mutating routes, the next
database.  Request validation performed by zod is embedded as functions
from the raw request fields (Express delivers query-string values as
strings, so each query parameter arrives as an `Option String`).
External primitives — the JWT signer/verifier and the bcrypt
hash/compare — are passed in as function parameters, since handlers only
call them.
-/

namespace CareerSim

/-- One row of the users table (prisma model User).  The `password`
field stores the bcrypt hash.  Timestamps carry no claim-relevant
information for users and are omitted. -/
structure User where
  id : Nat
  username : String
  email : String
  password : String
deriving DecidableEq

/-- One row of the items table (prisma model Item). -/
structure Item where
  id : Nat
  name : String
  description : Option String
  category : Option String
deriving DecidableEq

/-- One row of the reviews table (prisma model Review).  The schema has
a compound unique index on (userId, itemId). -/
structure Review where
  id : Nat
  rating : Nat
  content : String
  userId : Nat
  itemId : Nat
deriving DecidableEq

/-- One row of the comments table (prisma model Comment).  `createdAt`
is a logical creation timestamp, used by the comment listing's
`orderBy: createdAt asc`. -/
structure Comment where
  id : Nat
  content : String
  userId : Nat
  reviewId : Nat
  createdAt : Nat
deriving DecidableEq

/-- The relational store: four tables. -/
structure DB where
  users : List User
  items : List Item
  reviews : List Review
  comments : List Comment
deriving DecidableEq

/-- Projection of a user as returned inside nested `include` clauses
(select id, username). -/
structure UserBrief where
  id : Nat
  username : String
deriving DecidableEq

/-- An item as returned by GET /api/items: the raw item plus the derived
`averageRating`, with the rating list itself removed from the payload. -/
structure ItemOut where
  item : Item
  averageRating : Option Rat
deriving DecidableEq

/-- A comment as returned by the comment listing: the row plus the
included author projection. -/
structure CommentOut where
  comment : Comment
  user : Option UserBrief
deriving DecidableEq

/-- Response payloads used by the embedded handlers.  `zodIssues`
stands for the structured error list a zod parse failure produces. -/
inductive RespBody where
  | emptyBody
  | errorMsg (s : String)
  | zodIssues
  | messageBody (s : String)
  | tokenBody (t : String)
  | userCreated (id : Nat) (username email : String)
  | reviewBody (r : Review)
  | commentBody (c : Comment)
  | itemsPage (page limit : Nat) (items : List ItemOut)
  | commentsPage (page limit : Nat) (comments : List CommentOut)
deriving DecidableEq

/-- An HTTP response: status code plus JSON body. -/
structure Resp where
  status : Nat
  body : RespBody
deriving DecidableEq

/- ## Authentication gate (src/middleware/auth.js, authenticateToken) -/

/-- Outcome of the authentication middleware: either an early rejection
response, or the resolved user attached to the request. -/
inductive AuthOutcome where
  | reject (r : Resp)
  | proceed (u : User)
deriving DecidableEq

/-- Splitting a character list on every space, matching the semantics
of the JS `split(' ')` (adjacent separators yield empty fields). -/
def splitOnSpace : List Char → List (List Char)
  | [] => [[]]
  | c :: cs =>
    if c = ' ' then [] :: splitOnSpace cs
    else
      match splitOnSpace cs with
      | [] => [[c]]
      | w :: ws => (c :: w) :: ws

/-- Embeds `authHeader && authHeader.split(' ')[1]` followed by the
falsiness test `if (!token)`: a missing header, a header without a
second space-separated part, or an empty second part all yield none. -/
def extractToken (header : Option String) : Option String :=
  match header with
  | none => none
  | some h =>
    match (splitOnSpace h.data).get? 1 with
    | none => none
    | some t => if t = [] then none else some (String.mk t)

/-- Embeds authenticateToken.  `verify` models `jwt.verify` with the
server secret: it returns the embedded user id for a well-formed,
untampered, unexpired token and none (the JS code throws) otherwise.
The database is threaded through unchanged — the gate only reads. -/
def authenticateToken (verify : String → Option Nat) (header : Option String)
    (db : DB) : AuthOutcome × DB :=
  match extractToken header with
  | none => (.reject ⟨401, .errorMsg "Access token missing"⟩, db)
  | some t =>
    match verify t with
    | none => (.reject ⟨403, .errorMsg "Invalid or expired token"⟩, db)
    | some uid =>
      match db.users.find? (fun u => u.id = uid) with
      | none => (.reject ⟨401, .errorMsg "User not found"⟩, db)
      | some u => (.proceed u, db)

/- ## Users routes (src/api/users/routes.js) -/

/-- A registration body that passed `registerSchema.parse`. -/
structure RegisterInput where
  username : String
  email : String
  password : String
deriving DecidableEq

/-- Storage-layer errors surfaced by prisma: P2002 unique-constraint
violation, P2025 referenced record not found. -/
inductive PrismaErr where
  | uniqueViolation
  | recordNotFound
deriving DecidableEq

/-- Autoincrement id for a new user row. -/
def freshUserId (db : DB) : Nat :=
  (db.users.map (fun u => u.id)).foldr max 0 + 1

/-- Embeds `prisma.user.create`: the users table has unique indexes on
email and on username, so inserting a duplicate of either raises P2002. -/
def prismaUserCreate (username email hashed : String) (db : DB) :
    Except PrismaErr (User × DB) :=
  if (db.users.find? (fun u => u.email = email)).isSome
      || (db.users.find? (fun u => u.username = username)).isSome then
    .error .uniqueViolation
  else
    let u : User := ⟨freshUserId db, username, email, hashed⟩
    .ok (u, { db with users := db.users ++ [u] })

/-- Embeds POST /api/users/register (body already past zod).  `hash`
models `bcrypt.hash(password, 10)`.  The handler pre-checks only the
email; any error thrown by `prisma.user.create` (such as P2002 for a
duplicate username) is not a ZodError, so the catch block maps it to
the generic 500. -/
def register (hash : String → String) (input : RegisterInput) (db : DB) :
    Resp × DB :=
  match db.users.find? (fun u => u.email = input.email) with
  | some _ => (⟨400, .errorMsg "Email already in use"⟩, db)
  | none =>
    match prismaUserCreate input.username input.email (hash input.password) db with
    | .ok (u, db2) => (⟨201, .userCreated u.id u.username u.email⟩, db2)
    | .error _ => (⟨500, .errorMsg "Internal server error"⟩, db)

/-- Embeds POST /api/users/login (body already past zod).  `compareHash`
models `bcrypt.compare(password, storedHash)`; `signTok` models
`jwt.sign({id}, secret, {expiresIn})`.  Unknown email and wrong
password produce the same 400 response. -/
def login (compareHash : String → String → Bool) (signTok : Nat → String)
    (email password : String) (db : DB) : Resp :=
  match db.users.find? (fun u => u.email = email) with
  | none => ⟨400, .errorMsg "Invalid credentials"⟩
  | some user =>
    if compareHash password user.password then
      ⟨200, .tokenBody (signTok user.id)⟩
    else
      ⟨400, .errorMsg "Invalid credentials"⟩

/- ## Reviews routes (src/api/reviews/routes.js) -/

/-- A review-creation body that passed `createReviewSchema.parse`
(itemId number, rating 1..5, nonempty content). -/
structure CreateReviewInput where
  itemId : Nat
  rating : Nat
  content : String
deriving DecidableEq

/-- A review-update body that passed `updateReviewSchema.parse`; both
fields optional. -/
structure UpdateReviewInput where
  rating : Option Nat
  content : Option String
deriving DecidableEq

/-- Autoincrement id for a new review row. -/
def freshReviewId (db : DB) : Nat :=
  (db.reviews.map (fun r => r.id)).foldr max 0 + 1

/-- Embeds `prisma.review.create` with `connect` on user and item: the
connect raises P2025 when the referenced row is missing, and the
compound unique index on (userId, itemId) raises P2002 on a duplicate
pair.  The index is the storage-layer backstop that holds even when the
handler's pre-check is skipped or raced. -/
def prismaReviewCreate (uid iid rating : Nat) (content : String) (db : DB) :
    Except PrismaErr (Review × DB) :=
  if (db.users.find? (fun u => u.id = uid)).isNone then .error .recordNotFound
  else if (db.items.find? (fun it => it.id = iid)).isNone then .error .recordNotFound
  else if (db.reviews.find? (fun r => r.userId = uid && r.itemId = iid)).isSome then
    .error .uniqueViolation
  else
    let r : Review := ⟨freshReviewId db, rating, content, uid, iid⟩
    .ok (r, { db with reviews := db.reviews ++ [r] })

/-- Embeds POST /api/reviews (after authentication; body already past
zod).  The handler first looks up the compound key `userId_itemId`; on a
hit it answers 400 with the duplicate message and touches nothing.  Any
error from the create itself is caught and mapped to 500, again with no
state change. -/
def reviewsPost (input : CreateReviewInput) (uid : Nat) (db : DB) : Resp × DB :=
  match db.reviews.find? (fun r => r.userId = uid && r.itemId = input.itemId) with
  | some _ => (⟨400, .errorMsg "You have already reviewed this item."⟩, db)
  | none =>
    match prismaReviewCreate uid input.itemId input.rating input.content db with
    | .ok (r, db2) => (⟨201, .reviewBody r⟩, db2)
    | .error _ => (⟨500, .errorMsg "Internal server error"⟩, db)

/-- Embeds PUT /api/reviews/:id (after authentication).  `idParam` is
the result of `parseInt(req.params.id, 10)` with none for NaN; `body`
is the result of `updateReviewSchema.parse` with none for a ZodError.
Order in the source: NaN guard, zod parse, existence check, ownership
check, then the partial update in which an unsupplied field falls back
to the existing row's value. -/
def reviewsPut (idParam : Option Nat) (body : Option UpdateReviewInput)
    (uid : Nat) (db : DB) : Resp × DB :=
  match idParam with
  | none => (⟨400, .errorMsg "Invalid review ID"⟩, db)
  | some rid =>
    match body with
    | none => (⟨400, .zodIssues⟩, db)
    | some input =>
      match db.reviews.find? (fun r => r.id = rid) with
      | none => (⟨404, .errorMsg "Review not found"⟩, db)
      | some existingReview =>
        if existingReview.userId ≠ uid then
          (⟨403, .errorMsg "You are not authorized to update this review."⟩, db)
        else
          let updated : Review :=
            { existingReview with
                rating := match input.rating with
                  | some x => x
                  | none => existingReview.rating,
                content := match input.content with
                  | some s => s
                  | none => existingReview.content }
          (⟨200, .reviewBody updated⟩,
           { db with reviews :=
               db.reviews.map (fun r => if r.id = rid then updated else r) })

/-- Embeds DELETE /api/reviews/:id (after authentication): NaN guard,
existence check, ownership check, then `prisma.review.delete`, whose
cascade (Comment.review onDelete: Cascade) also removes the review's
comments. -/
def reviewsDelete (idParam : Option Nat) (uid : Nat) (db : DB) : Resp × DB :=
  match idParam with
  | none => (⟨400, .errorMsg "Invalid review ID"⟩, db)
  | some rid =>
    match db.reviews.find? (fun r => r.id = rid) with
    | none => (⟨404, .errorMsg "Review not found"⟩, db)
    | some existingReview =>
      if existingReview.userId ≠ uid then
        (⟨403, .errorMsg "You are not authorized to delete this review."⟩, db)
      else
        (⟨200, .messageBody "Review deleted successfully."⟩,
         { db with
             reviews := db.reviews.filter (fun r => r.id ≠ rid),
             comments := db.comments.filter (fun c => c.reviewId ≠ rid) })

/- ## Comments routes (src/api/comments/routes.js) -/

/-- Embeds PUT /api/comments/:id (after authentication).  `body` models
`updateCommentSchema.parse`: none for a ZodError, otherwise the
(nonempty) content.  Order: NaN guard, zod parse, existence, ownership,
update of the content field only. -/
def commentsPut (idParam : Option Nat) (body : Option String)
    (uid : Nat) (db : DB) : Resp × DB :=
  match idParam with
  | none => (⟨400, .errorMsg "Invalid comment ID."⟩, db)
  | some cid =>
    match body with
    | none => (⟨400, .zodIssues⟩, db)
    | some content =>
      match db.comments.find? (fun c => c.id = cid) with
      | none => (⟨404, .errorMsg "Comment not found."⟩, db)
      | some existingComment =>
        if existingComment.userId ≠ uid then
          (⟨403, .errorMsg "You are not authorized to update this comment."⟩, db)
        else
          let updated : Comment := { existingComment with content := content }
          (⟨200, .commentBody updated⟩,
           { db with comments :=
               db.comments.map (fun c => if c.id = cid then updated else c) })

/-- Embeds DELETE /api/comments/:id (after authentication): NaN guard,
existence check, ownership check, then the delete. -/
def commentsDelete (idParam : Option Nat) (uid : Nat) (db : DB) : Resp × DB :=
  match idParam with
  | none => (⟨400, .errorMsg "Invalid comment ID."⟩, db)
  | some cid =>
    match db.comments.find? (fun c => c.id = cid) with
    | none => (⟨404, .errorMsg "Comment not found."⟩, db)
    | some existingComment =>
      if existingComment.userId ≠ uid then
        (⟨403, .errorMsg "You are not authorized to delete this comment."⟩, db)
      else
        (⟨200, .messageBody "Comment deleted successfully."⟩,
         { db with comments := db.comments.filter (fun c => c.id ≠ cid) })

/-- Insert a comment into a list that is ascending by createdAt,
keeping it ascending (insertion step of a stable sort). -/
def insertByCreatedAt (c : Comment) : List Comment → List Comment
  | [] => [c]
  | x :: xs =>
    if c.createdAt < x.createdAt then c :: x :: xs
    else x :: insertByCreatedAt c xs

/-- Stable insertion sort ascending by createdAt, modelling
`orderBy: { createdAt: asc }`. -/
def sortByCreatedAt : List Comment → List Comment
  | [] => []
  | x :: xs => insertByCreatedAt x (sortByCreatedAt xs)

/-- Value of a decimal digit character. -/
def digitVal (c : Char) : Option Nat :=
  if '0' ≤ c ∧ c ≤ '9' then some (c.toNat - 48) else none

/-- Accumulating decimal parse of a digit list; none on any non-digit. -/
def digitsToNatAux (acc : Nat) : List Char → Option Nat
  | [] => some acc
  | c :: cs =>
    match digitVal c with
    | none => none
    | some d => digitsToNatAux (acc * 10 + d) cs

/-- Embeds the zod digit-string pattern match plus `Number(s)`: a
nonempty all-digit string parses to its decimal value, anything else is
a validation failure. -/
def digitStringToNat (s : String) : Option Nat :=
  match s.data with
  | [] => none
  | cs => digitsToNatAux 0 cs

/-- Embeds a digit-string query parameter with a zod default: absent
means the default, present means the string must be all digits. -/
def zDigitsDefault (dflt : Nat) (q : Option String) : Option Nat :=
  match q with
  | none => some dflt
  | some s => digitStringToNat s

/-- Embeds GET /api/comments.  Query parameters arrive as optional
strings; `getCommentsSchema` requires a digit-string reviewId and gives
page/limit defaults 1 and 10.  After validation: 404 when the review is
missing, otherwise the review's comments ascending by createdAt with
`skip = (page-1)*limit`, `take = limit`, each with its included author
projection. -/
def commentsGet (reviewId page limit : Option String) (db : DB) : Resp :=
  match (match reviewId with | none => none | some s => digitStringToNat s),
        zDigitsDefault 1 page, zDigitsDefault 10 limit with
  | some rid, some p, some l =>
    if (db.reviews.find? (fun r => r.id = rid)).isNone then
      ⟨404, .errorMsg "Review not found."⟩
    else
      let sorted := sortByCreatedAt (db.comments.filter (fun c => c.reviewId = rid))
      let pageList := (sorted.drop ((p - 1) * l)).take l
      ⟨200, .commentsPage p l (pageList.map (fun c =>
        ⟨c, (db.users.find? (fun u => u.id = c.userId)).map
              (fun u => ⟨u.id, u.username⟩)⟩))⟩
  | _, _, _ => ⟨400, .zodIssues⟩

/- ## Items routes (src/api/items/routes.js) -/

/-- Rounding used by `parseFloat(x.toFixed(2))` for the positive
averages that occur here: round to two decimal places, halves up. -/
def round2 (q : Rat) : Rat :=
  ((Int.floor (q * 100 + 1 / 2) : Int) : Rat) / 100

/-- Embeds the average-rating computation of lines 48-58 (and 112-122)
of the items routes: null for an empty rating list, otherwise
`reduce((acc, curr) => acc + curr.rating, 0) / length`.  The final
expression `averageRating ? parseFloat(averageRating.toFixed(2)) : null`
tests JS truthiness of the raw average, so a zero average would also
map to null. -/
def averageRatingOf (ratings : List Nat) : Option Rat :=
  if ratings.length > 0 then
    let avg : Rat := ((ratings.foldl (fun acc curr => acc + curr) 0 : Nat) : Rat)
      / (ratings.length : Rat)
    if avg = 0 then none else some (round2 avg)
  else none

/-- Ratings of the reviews attached to an item, as delivered by the
`include: { reviews: { select: { rating } } }` clause. -/
def ratingsOf (db : DB) (itemId : Nat) : List Nat :=
  (db.reviews.filter (fun r => r.itemId = itemId)).map (fun r => r.rating)

/-- JS truthiness of an optional query string: `if (search)` skips the
filter both when the parameter is absent and when it is empty. -/
def truthyStr (o : Option String) : Option String :=
  match o with
  | none => none
  | some s => if s = "" then none else some s

/-- Character-list prefix test (helper for the substring search). -/
def prefAux : List Char → List Char → Bool
  | [], _ => true
  | _ :: _, [] => false
  | a :: as, b :: bs => a = b && prefAux as bs

/-- Character-list substring test (helper for the substring search). -/
def infAux (needle : List Char) : List Char → Bool
  | [] => prefAux needle []
  | b :: bs => prefAux needle (b :: bs) || infAux needle bs

/-- Case-insensitive substring test, modelling prisma
`contains: s, mode: insensitive`. -/
def containsInsensitive (hay needle : String) : Bool :=
  infAux needle.toLower.data hay.toLower.data

/-- Embeds the `where` clause of the items findMany: an OR of
name/description contains-search (a null description matches nothing)
and an exact category equality. -/
def itemMatches (search category : Option String) (it : Item) : Bool :=
  (match search with
   | none => true
   | some s =>
     containsInsensitive it.name s
       || (match it.description with
           | some d => containsInsensitive d s
           | none => false))
  && (match category with
      | none => true
      | some c => it.category = some c)

/-- Embeds `querySchema.parse(req.query)` for GET /api/items.  The
schema declares page and limit as `z.number().int().min(1).default(n)`,
but Express delivers every query parameter as a string and z.number()
does not coerce, so a present page or limit always fails with
invalid_type; only absent parameters take their defaults. -/
def itemsQueryParse (search category page limit : Option String) :
    Option (Option String × Option String × Nat × Nat) :=
  match page, limit with
  | none, none => some (search, category, 1, 10)
  | _, _ => none

/-- Embeds GET /api/items: parse the query (ZodError means 400), filter,
apply `skip = (page-1)*limit` and `take = limit`, then attach
averageRating to each item while dropping the raw rating list. -/
def itemsGet (search category page limit : Option String) (db : DB) : Resp :=
  match itemsQueryParse search category page limit with
  | none => ⟨400, .zodIssues⟩
  | some (s, c, p, l) =>
    let filtered := db.items.filter (itemMatches (truthyStr s) (truthyStr c))
    let pageItems := (filtered.drop ((p - 1) * l)).take l
    ⟨200, .itemsPage p l (pageItems.map (fun it =>
      ⟨it, averageRatingOf (ratingsOf db it.id)⟩))⟩

/-- Embeds GET /api/items/:id.  After the NaN guard the handler builds
the findUnique argument whose nested select clauses are written
`select: { id, username }` — object-literal shorthand for variables
named id and username, neither of which is in scope in this module —
so evaluating the argument throws a ReferenceError for every numeric
id, before any database access; the catch block maps the throw to the
generic 500.  The 404 and 200 branches of the source are unreachable. -/
def itemGetById (idParam : Option Nat) (_db : DB) : Resp :=
  match idParam with
  | none => ⟨400, .errorMsg "Invalid item ID"⟩
  | some _ => ⟨500, .errorMsg "Internal server error"⟩

/- ## Theorems -/

/-- Claim C10: for every PUT or DELETE on reviews/:id or comments/:id by
an authenticated caller whose :id segment is non-numeric (parseInt
yields NaN), the response is 400 with the route-specific invalid-id
message, returned before any existence or ownership check and with no
state mutated. -/
theorem c10_nan_guard (db : DB) (uid : Nat) (body : Option UpdateReviewInput)
    (cbody : Option String) :
    reviewsPut none body uid db = (⟨400, .errorMsg "Invalid review ID"⟩, db)
    ∧ reviewsDelete none uid db = (⟨400, .errorMsg "Invalid review ID"⟩, db)
    ∧ commentsPut none cbody uid db = (⟨400, .errorMsg "Invalid comment ID."⟩, db)
    ∧ commentsDelete none uid db = (⟨400, .errorMsg "Invalid comment ID."⟩, db) :=
  ⟨rfl, rfl, rfl, rfl⟩

/-- Claim C1: for update and delete on a review or comment with a
numeric id and a well-formed body, a missing resource yields 404
whatever the caller's identity (existence is decided before ownership),
and an existing resource owned by someone else yields 403 with the
resource- and verb-specific message; in every such case the store is
untouched. -/
theorem c1_guard_order (db : DB) (rid uid : Nat) (body : UpdateReviewInput)
    (cbody : String) :
    (db.reviews.find? (fun r => r.id = rid) = none →
      reviewsPut (some rid) (some body) uid db
          = (⟨404, .errorMsg "Review not found"⟩, db)
        ∧ reviewsDelete (some rid) uid db
          = (⟨404, .errorMsg "Review not found"⟩, db))
    ∧ (∀ r, db.reviews.find? (fun x => x.id = rid) = some r → r.userId ≠ uid →
      reviewsPut (some rid) (some body) uid db
          = (⟨403, .errorMsg "You are not authorized to update this review."⟩, db)
        ∧ reviewsDelete (some rid) uid db
          = (⟨403, .errorMsg "You are not authorized to delete this review."⟩, db))
    ∧ (db.comments.find? (fun c => c.id = rid) = none →
      commentsPut (some rid) (some cbody) uid db
          = (⟨404, .errorMsg "Comment not found."⟩, db)
        ∧ commentsDelete (some rid) uid db
          = (⟨404, .errorMsg "Comment not found."⟩, db))
    ∧ (∀ c, db.comments.find? (fun x => x.id = rid) = some c → c.userId ≠ uid →
      commentsPut (some rid) (some cbody) uid db
          = (⟨403, .errorMsg "You are not authorized to update this comment."⟩, db)
        ∧ commentsDelete (some rid) uid db
          = (⟨403, .errorMsg "You are not authorized to delete this comment."⟩, db)) := by
  refine ⟨fun h => ⟨?_, ?_⟩, fun r hf ho => ⟨?_, ?_⟩, fun h => ⟨?_, ?_⟩,
    fun c hf ho => ⟨?_, ?_⟩⟩
  · simp [reviewsPut, h]
  · simp [reviewsDelete, h]
  · simp [reviewsPut, hf, ho]
  · simp [reviewsDelete, hf, ho]
  · simp [commentsPut, h]
  · simp [commentsDelete, h]
  · simp [commentsPut, hf, ho]
  · simp [commentsDelete, hf, ho]

/-- Claim C1 witness at a concrete store: review 1 and comment 1 both
belong to user 1; id 2 is absent. -/
theorem c1_guard_order_witness :
    reviewsPut (some 2) (some ⟨none, none⟩) 7
        (⟨[], [], [⟨1, 5, "good", 1, 1⟩], [⟨1, "c", 1, 1, 0⟩]⟩ : DB)
      = (⟨404, .errorMsg "Review not found"⟩,
         ⟨[], [], [⟨1, 5, "good", 1, 1⟩], [⟨1, "c", 1, 1, 0⟩]⟩)
    ∧ reviewsPut (some 1) (some ⟨none, none⟩) 2
        (⟨[], [], [⟨1, 5, "good", 1, 1⟩], [⟨1, "c", 1, 1, 0⟩]⟩ : DB)
      = (⟨403, .errorMsg "You are not authorized to update this review."⟩,
         ⟨[], [], [⟨1, 5, "good", 1, 1⟩], [⟨1, "c", 1, 1, 0⟩]⟩)
    ∧ commentsDelete (some 1) 2
        (⟨[], [], [⟨1, 5, "good", 1, 1⟩], [⟨1, "c", 1, 1, 0⟩]⟩ : DB)
      = (⟨403, .errorMsg "You are not authorized to delete this comment."⟩,
         ⟨[], [], [⟨1, 5, "good", 1, 1⟩], [⟨1, "c", 1, 1, 0⟩]⟩) :=
  ⟨((c1_guard_order _ 2 7 ⟨none, none⟩ "x").1 (by decide)).1,
   ((c1_guard_order _ 1 2 ⟨none, none⟩ "x").2.1 ⟨1, 5, "good", 1, 1⟩
      (by decide) (by decide)).1,
   ((c1_guard_order _ 1 2 ⟨none, none⟩ "x").2.2.2 ⟨1, "c", 1, 1, 0⟩
      (by decide) (by decide)).2⟩

/-- Claim C2: the authentication gate rejects a missing bearer token
with 401, a token that fails verification with 403, and a verified
token whose embedded user id has no user record with 401; otherwise it
attaches the resolved user and lets processing continue.  In every
case the store it returns is the store it was given — the gate never
mutates stored state. -/
theorem c2_auth_gate (verify : String → Option Nat) (header : Option String)
    (db : DB) :
    (extractToken header = none →
      authenticateToken verify header db
        = (.reject ⟨401, .errorMsg "Access token missing"⟩, db))
    ∧ (∀ t, extractToken header = some t → verify t = none →
      authenticateToken verify header db
        = (.reject ⟨403, .errorMsg "Invalid or expired token"⟩, db))
    ∧ (∀ t uid, extractToken header = some t → verify t = some uid →
      db.users.find? (fun u => u.id = uid) = none →
      authenticateToken verify header db
        = (.reject ⟨401, .errorMsg "User not found"⟩, db))
    ∧ (∀ t uid u, extractToken header = some t → verify t = some uid →
      db.users.find? (fun x => x.id = uid) = some u →
      authenticateToken verify header db = (.proceed u, db))
    ∧ (authenticateToken verify header db).2 = db := by
  refine ⟨fun h => ?_, fun t ht hv => ?_, fun t uid ht hv hu => ?_,
    fun t uid u ht hv hu => ?_, ?_⟩
  · simp [authenticateToken, h]
  · simp [authenticateToken, ht, hv]
  · simp [authenticateToken, ht, hv, hu]
  · simp [authenticateToken, ht, hv, hu]
  · unfold authenticateToken
    split
    · rfl
    · split
      · rfl
      · split
        · rfl
        · rfl

/-- Claim C2 witness: a verifier accepting exactly the token tok7 as
user 7, a store holding user 7, and the three header shapes. -/
theorem c2_auth_gate_witness :
    authenticateToken (fun t => if t = "tok7" then some 7 else none)
        (some "Bearer tok7") (⟨[⟨7, "u7", "u7@x.com", "h"⟩], [], [], []⟩ : DB)
      = (.proceed ⟨7, "u7", "u7@x.com", "h"⟩,
         ⟨[⟨7, "u7", "u7@x.com", "h"⟩], [], [], []⟩)
    ∧ authenticateToken (fun t => if t = "tok7" then some 7 else none)
        none (⟨[⟨7, "u7", "u7@x.com", "h"⟩], [], [], []⟩ : DB)
      = (.reject ⟨401, .errorMsg "Access token missing"⟩,
         ⟨[⟨7, "u7", "u7@x.com", "h"⟩], [], [], []⟩)
    ∧ authenticateToken (fun t => if t = "tok7" then some 7 else none)
        (some "Bearer bad") (⟨[⟨7, "u7", "u7@x.com", "h"⟩], [], [], []⟩ : DB)
      = (.reject ⟨403, .errorMsg "Invalid or expired token"⟩,
         ⟨[⟨7, "u7", "u7@x.com", "h"⟩], [], [], []⟩)
    ∧ authenticateToken (fun t => if t = "tok9" then some 9 else none)
        (some "Bearer tok9") (⟨[⟨7, "u7", "u7@x.com", "h"⟩], [], [], []⟩ : DB)
      = (.reject ⟨401, .errorMsg "User not found"⟩,
         ⟨[⟨7, "u7", "u7@x.com", "h"⟩], [], [], []⟩) :=
  ⟨(c2_auth_gate _ _ _).2.2.2.1 "tok7" 7 ⟨7, "u7", "u7@x.com", "h"⟩
      (by decide) (by decide) (by decide),
   (c2_auth_gate _ _ _).1 (by decide),
   (c2_auth_gate _ _ _).2.1 "bad" (by decide) (by decide),
   (c2_auth_gate _ _ _).2.2.1 "tok9" 9 (by decide) (by decide) (by decide)⟩

/-- Claim C5 (code bug evidence): GET /items/:id answers 500 for every
numeric id — 999999 with an empty store (the repo's own test expects
404 there) and id 1 when item 1 exists (the test expects 200 with
nested reviews) — because the nested select shorthand references
undefined variables and throws; only the non-numeric-id 400 branch
behaves as specified. -/
theorem c5_item_detail_always_500 :
    itemGetById (some 999999) (⟨[], [], [], []⟩ : DB)
      = ⟨500, .errorMsg "Internal server error"⟩
    ∧ itemGetById (some 1) (⟨[], [⟨1, "Test Item 1", some "d", some "Category A"⟩],
        [], []⟩ : DB) = ⟨500, .errorMsg "Internal server error"⟩
    ∧ itemGetById none (⟨[], [], [], []⟩ : DB)
      = ⟨400, .errorMsg "Invalid item ID"⟩ :=
  ⟨rfl, rfl, rfl⟩

/-- Claim C7: login failure is 400 with body error "Invalid credentials"
both when the email is unknown and when the password comparison fails,
and two runs differing only in which check failed produce the same
observable response; a successful login answers 200 with a token signed
for the user's id. -/
theorem c7_login_uniform_failure (cmp : String → String → Bool)
    (sign : Nat → String) (db : DB) (e1 p1 e2 p2 : String) :
    (db.users.find? (fun u => u.email = e1) = none →
      login cmp sign e1 p1 db = ⟨400, .errorMsg "Invalid credentials"⟩)
    ∧ (∀ u, db.users.find? (fun x => x.email = e2) = some u →
      cmp p2 u.password = false →
      login cmp sign e2 p2 db = ⟨400, .errorMsg "Invalid credentials"⟩)
    ∧ (∀ u, db.users.find? (fun x => x.email = e1) = none →
      db.users.find? (fun x => x.email = e2) = some u →
      cmp p2 u.password = false →
      login cmp sign e1 p1 db = login cmp sign e2 p2 db)
    ∧ (∀ u, db.users.find? (fun x => x.email = e1) = some u →
      cmp p1 u.password = true →
      login cmp sign e1 p1 db = ⟨200, .tokenBody (sign u.id)⟩) := by
  refine ⟨fun h => ?_, fun u hf hc => ?_, fun u h1 h2 hc => ?_, fun u hf hc => ?_⟩
  · simp [login, h]
  · simp [login, hf, hc]
  · simp [login, h1, h2, hc]
  · simp [login, hf, hc]

/-- Claim C7 witness: a store with one user whose stored hash is
hash-pw; the unknown-email run and the wrong-password run produce the
same response, and the correct password logs in. -/
theorem c7_login_uniform_failure_witness :
    login (fun p h => p ++ "-hashed" = h) (fun n => "token" ++ toString n)
        "nobody@x.com" "pw"
        (⟨[⟨1, "alice", "alice@x.com", "pw-hashed"⟩], [], [], []⟩ : DB)
      = login (fun p h => p ++ "-hashed" = h) (fun n => "token" ++ toString n)
          "alice@x.com" "wrong"
          (⟨[⟨1, "alice", "alice@x.com", "pw-hashed"⟩], [], [], []⟩ : DB)
    ∧ login (fun p h => p ++ "-hashed" = h) (fun n => "token" ++ toString n)
        "alice@x.com" "pw"
        (⟨[⟨1, "alice", "alice@x.com", "pw-hashed"⟩], [], [], []⟩ : DB)
      = ⟨200, .tokenBody "token1"⟩ :=
  ⟨(c7_login_uniform_failure _ _ _ "nobody@x.com" "pw" "alice@x.com" "wrong").2.2.1
      ⟨1, "alice", "alice@x.com", "pw-hashed"⟩ (by decide) (by decide) (by decide),
   (c7_login_uniform_failure _ _ _ "alice@x.com" "pw" "" "").2.2.2
      ⟨1, "alice", "alice@x.com", "pw-hashed"⟩ (by decide) (by decide)⟩

/-- Claim C8: updating an owned review applies exactly the supplied
fields: a supplied rating or content replaces the stored one, an
unsupplied one keeps its prior value, and id, userId and itemId are
unchanged; the stored table is rewritten only at the target id and
every other review survives untouched. -/
theorem c8_partial_update (db : DB) (rid uid : Nat) (input : UpdateReviewInput)
    (r : Review) (hf : db.reviews.find? (fun x => x.id = rid) = some r)
    (ho : r.userId = uid) :
    reviewsPut (some rid) (some input) uid db
      = (⟨200, .reviewBody ⟨r.id, input.rating.getD r.rating,
            input.content.getD r.content, r.userId, r.itemId⟩⟩,
         { db with reviews := db.reviews.map (fun x =>
             if x.id = rid then
               ⟨r.id, input.rating.getD r.rating, input.content.getD r.content,
                r.userId, r.itemId⟩
             else x) })
    ∧ ∀ x ∈ db.reviews, x.id ≠ rid →
        x ∈ (reviewsPut (some rid) (some input) uid db).2.reviews := by
  have hmain : reviewsPut (some rid) (some input) uid db
      = (⟨200, .reviewBody ⟨r.id, input.rating.getD r.rating,
            input.content.getD r.content, r.userId, r.itemId⟩⟩,
         { db with reviews := db.reviews.map (fun x =>
             if x.id = rid then
               ⟨r.id, input.rating.getD r.rating, input.content.getD r.content,
                r.userId, r.itemId⟩
             else x) }) := by
    cases hr : input.rating <;> cases hc : input.content <;>
      simp [reviewsPut, hf, ho, hr, hc]
  refine ⟨hmain, fun x hx hne => ?_⟩
  rw [hmain]
  have hfix : (fun y : Review =>
      if y.id = rid then
        (⟨r.id, input.rating.getD r.rating, input.content.getD r.content,
          r.userId, r.itemId⟩ : Review)
      else y) x = x := by simp [hne]
  exact hfix ▸ List.mem_map_of_mem _ hx

/-- Claim C8 witness: review 1 of user 1 has rating 5 and content old;
supplying only a new rating keeps the content, the author, the item and
the id, and the sibling review 2 is untouched. -/
theorem c8_partial_update_witness :
    reviewsPut (some 1) (some ⟨some 4, none⟩) 1
        (⟨[], [], [⟨1, 5, "old", 1, 1⟩, ⟨2, 3, "other", 2, 1⟩], []⟩ : DB)
      = (⟨200, .reviewBody ⟨1, 4, "old", 1, 1⟩⟩,
         ⟨[], [], [⟨1, 4, "old", 1, 1⟩, ⟨2, 3, "other", 2, 1⟩], []⟩)
    ∧ (⟨2, 3, "other", 2, 1⟩ : Review) ∈
        (reviewsPut (some 1) (some ⟨some 4, none⟩) 1
          (⟨[], [], [⟨1, 5, "old", 1, 1⟩, ⟨2, 3, "other", 2, 1⟩], []⟩ : DB)).2.reviews := by
  have h := c8_partial_update
    (⟨[], [], [⟨1, 5, "old", 1, 1⟩, ⟨2, 3, "other", 2, 1⟩], []⟩ : DB)
    1 1 ⟨some 4, none⟩ ⟨1, 5, "old", 1, 1⟩ (by decide) (by decide)
  exact ⟨by simpa using h.1,
    h.2 ⟨2, 3, "other", 2, 1⟩ (by decide) (by decide)⟩

/-- Claim C6 counterexample: the store already holds the username alice
(under a different email).  Registering alice again with a fresh email
violates the username uniqueness constraint, yet the caller gets the
generic 500 Internal server error, not a 400 already-in-use error —
refuting the claim that every uniqueness violation fails distinctly
from generic storage errors. -/
theorem c6_username_duplicate_counterexample :
    register (fun s => s ++ "-hashed") ⟨"alice", "bob@x.com", "secret1"⟩
        (⟨[⟨1, "alice", "alice@x.com", "h"⟩], [], [], []⟩ : DB)
      = (⟨500, .errorMsg "Internal server error"⟩,
         ⟨[⟨1, "alice", "alice@x.com", "h"⟩], [], [], []⟩)
    ∧ (register (fun s => s ++ "-hashed") ⟨"alice", "bob@x.com", "secret1"⟩
        (⟨[⟨1, "alice", "alice@x.com", "h"⟩], [], [], []⟩ : DB)).1.status ≠ 400 :=
  ⟨by decide, by decide⟩

/-- Claim C6 as amended: a duplicate email is caught by the pre-check
and answered 400 with error Email already in use, whatever username is
supplied, with the store unchanged; but a duplicate username under a
fresh email reaches prisma.user.create, whose unique-constraint error
the handler does not distinguish, so the caller receives the generic
500 Internal server error (store also unchanged). -/
theorem c6_register_duplicates (hash : String → String) (input : RegisterInput)
    (db : DB) :
    ((∃ u ∈ db.users, u.email = input.email) →
      register hash input db = (⟨400, .errorMsg "Email already in use"⟩, db))
    ∧ ((∀ u ∈ db.users, u.email ≠ input.email) →
      (∃ u ∈ db.users, u.username = input.username) →
      register hash input db = (⟨500, .errorMsg "Internal server error"⟩, db)) := by
  constructor
  · intro he
    have hs : (db.users.find? (fun u => u.email = input.email)).isSome := by
      rw [List.find?_isSome]
      obtain ⟨u, hu, he2⟩ := he
      exact ⟨u, hu, by simp [he2]⟩
    obtain ⟨u, hu⟩ := Option.isSome_iff_exists.mp hs
    simp [register, hu]
  · intro hne hdup
    have hn : db.users.find? (fun u => u.email = input.email) = none := by
      rw [List.find?_eq_none]
      intro u hu
      simp [hne u hu]
    have hs : (db.users.find? (fun u => u.username = input.username)).isSome := by
      rw [List.find?_isSome]
      obtain ⟨u, hu, hn2⟩ := hdup
      exact ⟨u, hu, by simp [hn2]⟩
    simp [register, hn, prismaUserCreate, hs]

/-- Claim C6 witness: registering bob's email twice is rejected 400
even under a different username, and the username collision at a fresh
email yields the generic 500. -/
theorem c6_register_duplicates_witness :
    register (fun s => s ++ "-hashed") ⟨"carol", "bob@x.com", "secret1"⟩
        (⟨[⟨1, "bob", "bob@x.com", "h"⟩], [], [], []⟩ : DB)
      = (⟨400, .errorMsg "Email already in use"⟩,
         ⟨[⟨1, "bob", "bob@x.com", "h"⟩], [], [], []⟩)
    ∧ register (fun s => s ++ "-hashed") ⟨"bob", "new@x.com", "secret1"⟩
        (⟨[⟨1, "bob", "bob@x.com", "h"⟩], [], [], []⟩ : DB)
      = (⟨500, .errorMsg "Internal server error"⟩,
         ⟨[⟨1, "bob", "bob@x.com", "h"⟩], [], [], []⟩) :=
  ⟨(c6_register_duplicates _ ⟨"carol", "bob@x.com", "secret1"⟩ _).1
      ⟨⟨1, "bob", "bob@x.com", "h"⟩, by decide, by decide⟩,
   (c6_register_duplicates _ ⟨"bob", "new@x.com", "secret1"⟩ _).2
      (by decide) ⟨⟨1, "bob", "bob@x.com", "h"⟩, by decide, by decide⟩⟩

/-- At most one review per (user, item) pair: any two stored reviews
that agree on both foreign keys are the same row. -/
def pairwiseUniquePairs (l : List Review) : Prop :=
  ∀ r1 ∈ l, ∀ r2 ∈ l, r1.userId = r2.userId → r1.itemId = r2.itemId → r1 = r2

/-- Every branch of reviewsPost either leaves the store untouched or
appends exactly the new review, and in the latter case no stored review
already carried the (userId, itemId) pair. -/
lemma reviewsPost_state (input : CreateReviewInput) (uid : Nat) (db : DB) :
    (reviewsPost input uid db).2 = db
    ∨ ((reviewsPost input uid db).2.reviews
          = db.reviews ++ [⟨freshReviewId db, input.rating, input.content, uid,
              input.itemId⟩]
        ∧ db.reviews.find? (fun r => r.userId = uid && r.itemId = input.itemId)
            = none) := by
  unfold reviewsPost
  cases hfind : db.reviews.find? (fun r => r.userId = uid && r.itemId = input.itemId) with
  | some r => exact Or.inl rfl
  | none =>
    unfold prismaReviewCreate
    by_cases hu : (db.users.find? (fun u => u.id = uid)).isNone
    · simp [hu]
    · by_cases hi : (db.items.find? (fun it => it.id = input.itemId)).isNone
      · simp [hu, hi]
      · simp [hu, hi, hfind]

/-- Appending a review whose (userId, itemId) pair is absent preserves
pairwise uniqueness of pairs. -/
lemma pairwiseUniquePairs_append (l : List Review) (new : Review)
    (hinv : pairwiseUniquePairs l)
    (habsent : ∀ r ∈ l, ¬(r.userId = new.userId ∧ r.itemId = new.itemId)) :
    pairwiseUniquePairs (l ++ [new]) := by
  intro r1 h1 r2 h2 hu hi
  rcases List.mem_append.mp h1 with h1l | h1n
  · rcases List.mem_append.mp h2 with h2l | h2n
    · exact hinv r1 h1l r2 h2l hu hi
    · have h2e : r2 = new := List.mem_singleton.mp h2n
      exact absurd ⟨h2e ▸ hu, h2e ▸ hi⟩ (habsent r1 h1l)
  · have h1e : r1 = new := List.mem_singleton.mp h1n
    rcases List.mem_append.mp h2 with h2l | h2n
    · exact absurd ⟨h1e ▸ hu.symm, h1e ▸ hi.symm⟩ (habsent r2 h2l)
    · exact h1e.trans (List.mem_singleton.mp h2n).symm

/-- Claim C3: creating a review for an item the caller has already
reviewed answers 400 with the duplicate message and leaves the stored
reviews unchanged, and — via the storage layer's compound unique
constraint — any reviewsPost call preserves the at-most-one-review-per
(user, item)-pair invariant. -/
theorem c3_duplicate_review (db : DB) (uid : Nat) (input : CreateReviewInput) :
    ((∃ r ∈ db.reviews, r.userId = uid ∧ r.itemId = input.itemId) →
      reviewsPost input uid db
        = (⟨400, .errorMsg "You have already reviewed this item."⟩, db))
    ∧ (pairwiseUniquePairs db.reviews →
      pairwiseUniquePairs (reviewsPost input uid db).2.reviews) := by
  constructor
  · intro hex
    have hs : (db.reviews.find?
        (fun r => r.userId = uid && r.itemId = input.itemId)).isSome := by
      rw [List.find?_isSome]
      obtain ⟨r, hr, h1, h2⟩ := hex
      exact ⟨r, hr, by simp [h1, h2]⟩
    obtain ⟨r, hr⟩ := Option.isSome_iff_exists.mp hs
    simp [reviewsPost, hr]
  · intro hinv
    rcases reviewsPost_state input uid db with hsame | ⟨happ, hnone⟩
    · rw [hsame]; exact hinv
    · rw [happ]
      refine pairwiseUniquePairs_append _ _ hinv ?_
      intro r hr hcontra
      have := List.find?_eq_none.mp hnone r hr
      simp only [Bool.and_eq_true, decide_eq_true_eq] at this
      exact this ⟨hcontra.1, hcontra.2⟩

/-- Claim C3 witness: user 1 already reviewed item 1, so a second
attempt is answered 400 and the store stays as it was; a fresh create
on item 2 preserves the pair-uniqueness invariant. -/
theorem c3_duplicate_review_witness :
    reviewsPost ⟨1, 4, "second try"⟩ 1
        (⟨[⟨1, "u1", "u1@x.com", "h"⟩], [⟨1, "Item", none, none⟩,
          ⟨2, "Item2", none, none⟩], [⟨1, 5, "first", 1, 1⟩], []⟩ : DB)
      = (⟨400, .errorMsg "You have already reviewed this item."⟩,
         ⟨[⟨1, "u1", "u1@x.com", "h"⟩], [⟨1, "Item", none, none⟩,
          ⟨2, "Item2", none, none⟩], [⟨1, 5, "first", 1, 1⟩], []⟩)
    ∧ pairwiseUniquePairs (reviewsPost ⟨2, 4, "new one"⟩ 1
        (⟨[⟨1, "u1", "u1@x.com", "h"⟩], [⟨1, "Item", none, none⟩,
          ⟨2, "Item2", none, none⟩], [⟨1, 5, "first", 1, 1⟩], []⟩ : DB)).2.reviews :=
  ⟨(c3_duplicate_review _ 1 ⟨1, 4, "second try"⟩).1
      ⟨⟨1, 5, "first", 1, 1⟩, by decide, by decide, by decide⟩,
   (c3_duplicate_review _ 1 ⟨2, 4, "new one"⟩).2 (by
      intro r1 h1 r2 h2 hu hi
      simp only [List.mem_singleton] at h1 h2
      rw [h1, h2])⟩

/-- When the rating list is nonempty and its mean is nonzero, the
computed average is the rounded mean. -/
lemma averageRatingOf_some (ratings : List Nat) (hne : ratings ≠ [])
    (hz : (((ratings.sum : Nat) : Rat) / (ratings.length : Rat)) ≠ 0) :
    averageRatingOf ratings
      = some (round2 (((ratings.sum : Nat) : Rat) / (ratings.length : Rat))) := by
  unfold averageRatingOf
  rw [← List.sum_eq_foldl]
  rw [if_pos (List.length_pos.mpr hne)]
  exact if_neg hz

/-- With every rating at least 1, a nonempty rating list has a nonzero
rational mean (so the JS truthiness test on the raw average cannot
misfire). -/
lemma mean_ne_zero (ratings : List Nat) (hne : ratings ≠ [])
    (h : ∀ x ∈ ratings, 1 ≤ x) :
    (((ratings.sum : Nat) : Rat) / (ratings.length : Rat)) ≠ 0 := by
  have hs : ratings.sum ≠ 0 := by
    cases ratings with
    | nil => exact absurd rfl hne
    | cons a as =>
      have ha := h a (List.mem_cons_self a as)
      simp only [List.sum_cons]
      omega
  rw [div_ne_zero_iff]
  constructor
  · exact_mod_cast hs
  · exact_mod_cast (List.length_pos.mpr hne).ne'

/-- Claim C4: every item in the list response carries an averageRating
that is null exactly when the item has no reviews and otherwise equals
the arithmetic mean of its review ratings rounded to two decimals, as
long as stored ratings respect the validated range (at least 1); and
the ratings 5 and 4 average to exactly 9/2. -/
theorem c4_average_rating (db : DB) (s c : Option String)
    (hr : ∀ r ∈ db.reviews, 1 ≤ r.rating) :
    (∀ p l L, itemsGet s c none none db = ⟨200, .itemsPage p l L⟩ →
      ∀ o ∈ L,
        (o.averageRating = none ↔ ratingsOf db o.item.id = [])
        ∧ (ratingsOf db o.item.id ≠ [] →
          o.averageRating = some (round2
            ((((ratingsOf db o.item.id).sum : Nat) : Rat)
              / ((ratingsOf db o.item.id).length : Rat)))))
    ∧ averageRatingOf [5, 4] = some ((9 : Rat) / 2) := by
  constructor
  · intro p l L hEq o ho
    rw [show itemsGet s c none none db
        = ⟨200, .itemsPage 1 10 ((((db.items.filter
              (itemMatches (truthyStr s) (truthyStr c))).drop ((1 - 1) * 10)).take 10).map
            (fun it => ⟨it, averageRatingOf (ratingsOf db it.id)⟩))⟩ from rfl] at hEq
    injection hEq with hstat hbody
    injection hbody with hp hl hL
    rw [← hL] at ho
    obtain ⟨it, hit, rfl⟩ := List.mem_map.mp ho
    have hall : ∀ x ∈ ratingsOf db it.id, 1 ≤ x := by
      intro x hx
      obtain ⟨r, hrmem, rfl⟩ := List.mem_map.mp hx
      exact hr r (List.mem_filter.mp hrmem).1
    constructor
    · constructor
      · intro hnone
        by_contra hne
        rw [averageRatingOf_some _ hne (mean_ne_zero _ hne hall)] at hnone
        exact Option.noConfusion hnone
      · intro hnil
        show averageRatingOf (ratingsOf db it.id) = none
        rw [hnil]
        rfl
    · intro hne
      exact averageRatingOf_some _ hne (mean_ne_zero _ hne hall)
  · rw [averageRatingOf]
    norm_num [round2]

/-- Claim C4 witness: in a store where item 1 has reviews rated 5 and 4
and item 2 has none, the list-endpoint entry for item 1 carries the
rounded mean of its ratings and the entry for item 2 carries null. -/
theorem c4_average_rating_witness :
    averageRatingOf (ratingsOf
        (⟨[], [⟨1, "A", none, none⟩, ⟨2, "B", none, none⟩], [⟨1, 5, "x", 1, 1⟩,
          ⟨2, 4, "y", 2, 1⟩], []⟩ : DB) 1)
      = some (round2 ((((ratingsOf
          (⟨[], [⟨1, "A", none, none⟩, ⟨2, "B", none, none⟩], [⟨1, 5, "x", 1, 1⟩,
            ⟨2, 4, "y", 2, 1⟩], []⟩ : DB) 1).sum : Nat) : Rat)
        / ((ratingsOf
          (⟨[], [⟨1, "A", none, none⟩, ⟨2, "B", none, none⟩], [⟨1, 5, "x", 1, 1⟩,
            ⟨2, 4, "y", 2, 1⟩], []⟩ : DB) 1).length : Rat)))
    ∧ averageRatingOf (ratingsOf
        (⟨[], [⟨1, "A", none, none⟩, ⟨2, "B", none, none⟩], [⟨1, 5, "x", 1, 1⟩,
          ⟨2, 4, "y", 2, 1⟩], []⟩ : DB) 2)
      = none := by
  have h := c4_average_rating
    (⟨[], [⟨1, "A", none, none⟩, ⟨2, "B", none, none⟩], [⟨1, 5, "x", 1, 1⟩,
      ⟨2, 4, "y", 2, 1⟩], []⟩ : DB) none none
    (by intro r hrm; fin_cases hrm <;> norm_num)
  have h1 := h.1 1 10 _ rfl ⟨⟨1, "A", none, none⟩,
      averageRatingOf (ratingsOf (⟨[], [⟨1, "A", none, none⟩, ⟨2, "B", none, none⟩],
        [⟨1, 5, "x", 1, 1⟩, ⟨2, 4, "y", 2, 1⟩], []⟩ : DB) 1)⟩
    (List.mem_cons_self _ _)
  have h2 := h.1 1 10 _ rfl ⟨⟨2, "B", none, none⟩,
      averageRatingOf (ratingsOf (⟨[], [⟨1, "A", none, none⟩, ⟨2, "B", none, none⟩],
        [⟨1, 5, "x", 1, 1⟩, ⟨2, 4, "y", 2, 1⟩], []⟩ : DB) 2)⟩
    (List.mem_cons_of_mem _ (List.mem_cons_self _ _))
  exact ⟨h1.2 (by decide), h2.1.mpr (by decide)⟩

/-- Claim C9 (code bug evidence, plus the part that holds): supplying
explicit page and limit query strings to GET /items always fails
validation with 400 — `z.number()` rejects the strings Express delivers
— instead of the 200 the claim states; while on GET /comments, which
parses digit strings, page 2 with limit 10 returns exactly entries
11 through 20 of the createdAt-ascending ordering (position j of the
page is position 10 + j of the full ordering). -/
theorem c9_pagination (db : DB) (rid j : Nat) (s : String) :
    itemsGet none none (some "2") (some "10") db = ⟨400, .zodIssues⟩
    ∧ (digitStringToNat s = some rid →
      (db.reviews.find? (fun r => r.id = rid)).isSome →
      j < 10 →
      ∀ p l L, commentsGet (some s) (some "2") (some "10") db
          = ⟨200, .commentsPage p l L⟩ →
        (L.map (fun co => co.comment))[j]?
          = (sortByCreatedAt (db.comments.filter
              (fun c => c.reviewId = rid)))[10 + j]?) := by
  constructor
  · rfl
  · intro hs hsome hj p l L hEq
    obtain ⟨r, hr⟩ := Option.isSome_iff_exists.mp hsome
    have h2 : zDigitsDefault 1 (some "2") = some 2 := by decide
    have h10 : zDigitsDefault 10 (some "10") = some 10 := by decide
    simp only [commentsGet, hs, h2, h10, hr, Option.isNone_some, Bool.false_eq_true,
      if_false, Resp.mk.injEq, RespBody.commentsPage.injEq] at hEq
    obtain ⟨-, -, -, hL⟩ := hEq
    rw [← hL, List.map_map]
    have hid : ((fun co : CommentOut => co.comment) ∘ (fun c : Comment =>
        (⟨c, (db.users.find? (fun u => u.id = c.userId)).map
          (fun u => ⟨u.id, u.username⟩)⟩ : CommentOut))) = fun c => c := rfl
    rw [hid, List.map_id']
    rw [show (2 - 1) * 10 = 10 from rfl]
    rw [List.getElem?_take, if_pos hj, List.getElem?_drop]

/-- Claim C9 witness: review 1 carries comments created at times 1
through 12; requesting page 2 with limit 10 yields a page whose first
entry is the 11th comment of the ascending ordering, while the same
explicit page and limit on GET /items are rejected with 400. -/
theorem c9_pagination_witness :
    itemsGet none none (some "2") (some "10")
        (⟨[⟨1, "u", "u@x.com", "h"⟩], [], [⟨1, 5, "r", 1, 1⟩],
          [⟨1, "c", 1, 1, 1⟩, ⟨2, "c", 1, 1, 2⟩, ⟨3, "c", 1, 1, 3⟩,
           ⟨4, "c", 1, 1, 4⟩, ⟨5, "c", 1, 1, 5⟩, ⟨6, "c", 1, 1, 6⟩,
           ⟨7, "c", 1, 1, 7⟩, ⟨8, "c", 1, 1, 8⟩, ⟨9, "c", 1, 1, 9⟩,
           ⟨10, "c", 1, 1, 10⟩, ⟨11, "c", 1, 1, 11⟩, ⟨12, "c", 1, 1, 12⟩]⟩ : DB)
      = ⟨400, .zodIssues⟩
    ∧ (([⟨⟨11, "c", 1, 1, 11⟩, some ⟨1, "u"⟩⟩,
         ⟨⟨12, "c", 1, 1, 12⟩, some ⟨1, "u"⟩⟩] : List CommentOut).map
          (fun co => co.comment))[0]?
        = (sortByCreatedAt
            ((⟨[⟨1, "u", "u@x.com", "h"⟩], [], [⟨1, 5, "r", 1, 1⟩],
              [⟨1, "c", 1, 1, 1⟩, ⟨2, "c", 1, 1, 2⟩, ⟨3, "c", 1, 1, 3⟩,
               ⟨4, "c", 1, 1, 4⟩, ⟨5, "c", 1, 1, 5⟩, ⟨6, "c", 1, 1, 6⟩,
               ⟨7, "c", 1, 1, 7⟩, ⟨8, "c", 1, 1, 8⟩, ⟨9, "c", 1, 1, 9⟩,
               ⟨10, "c", 1, 1, 10⟩, ⟨11, "c", 1, 1, 11⟩,
               ⟨12, "c", 1, 1, 12⟩]⟩ : DB).comments.filter
              (fun c => c.reviewId = 1)))[10 + 0]? :=
  ⟨(c9_pagination (⟨[⟨1, "u", "u@x.com", "h"⟩], [], [⟨1, 5, "r", 1, 1⟩],
      [⟨1, "c", 1, 1, 1⟩, ⟨2, "c", 1, 1, 2⟩, ⟨3, "c", 1, 1, 3⟩,
       ⟨4, "c", 1, 1, 4⟩, ⟨5, "c", 1, 1, 5⟩, ⟨6, "c", 1, 1, 6⟩,
       ⟨7, "c", 1, 1, 7⟩, ⟨8, "c", 1, 1, 8⟩, ⟨9, "c", 1, 1, 9⟩,
       ⟨10, "c", 1, 1, 10⟩, ⟨11, "c", 1, 1, 11⟩, ⟨12, "c", 1, 1, 12⟩]⟩ : DB)
      1 0 "1").1,
   (c9_pagination (⟨[⟨1, "u", "u@x.com", "h"⟩], [], [⟨1, 5, "r", 1, 1⟩],
      [⟨1, "c", 1, 1, 1⟩, ⟨2, "c", 1, 1, 2⟩, ⟨3, "c", 1, 1, 3⟩,
       ⟨4, "c", 1, 1, 4⟩, ⟨5, "c", 1, 1, 5⟩, ⟨6, "c", 1, 1, 6⟩,
       ⟨7, "c", 1, 1, 7⟩, ⟨8, "c", 1, 1, 8⟩, ⟨9, "c", 1, 1, 9⟩,
       ⟨10, "c", 1, 1, 10⟩, ⟨11, "c", 1, 1, 11⟩, ⟨12, "c", 1, 1, 12⟩]⟩ : DB)
      1 0 "1").2 (by decide) (by decide) (by decide) 2 10
      [⟨⟨11, "c", 1, 1, 11⟩, some ⟨1, "u"⟩⟩, ⟨⟨12, "c", 1, 1, 12⟩, some ⟨1, "u"⟩⟩]
      (by decide)⟩

end CareerSim
